import Mathlib

/-!
Shallow embedding of the warp-taskbar tray application (files `src/main.rs`
and `src/_df.rs`).  External effects (process spawning, printing, icon
updates) are represented explicitly: each function that in Rust captures the
output of an external process takes that captured result as a parameter, and
each handler returns the list of effects it performs.
-/

namespace WarpTaskbar

/-- Rust `str::contains`: `pat` occurs as a contiguous substring of `s`. -/
def strContains (s pat : String) : Bool :=
  (List.range (s.data.length + 1)).any fun i => pat.data.isPrefixOf (s.data.drop i)

/-- The result of attempting to run an external process and capture its
output (`std::process::Command::output`): either the captured stdout or a
spawn error message. -/
inductive ProcResult where
  | ok (stdout : String)
  | err (msg : String)
deriving DecidableEq

/-- The environment visible to `is_dark_mode_enabled`: the captured stdout of
each external query (`none` when running the query tool fails) and the state
of the KDE `kdeglobals` file. -/
structure ThemeEnv where
  /-- stdout of `gsettings get org.gnome.desktop.interface color-scheme`. -/
  gnomeColorScheme : Option String
  /-- value of the `HOME` environment variable. -/
  home : Option String
  /-- whether `$HOME/.config/kdeglobals` exists. -/
  kdeglobalsExists : Bool
  /-- contents of `$HOME/.config/kdeglobals`; `none` when unreadable. -/
  kdeglobalsContent : Option String
  /-- stdout of `xfconf-query -c xsettings -p /Net/ThemeName`. -/
  xfceThemeName : Option String
  /-- stdout of `gsettings get org.cinnamon.desktop.interface gtk-theme`. -/
  cinnamonGtkTheme : Option String
  /-- stdout of `gsettings get org.mate.interface gtk-theme`. -/
  mateGtkTheme : Option String
  /-- stdout of `gsettings get io.elementary.terminal.settings prefer-dark-style`. -/
  elementaryPreferDark : Option String
  /-- stdout of `gsettings get org.gnome.desktop.interface gtk-theme`. -/
  gnomeGtkTheme : Option String
deriving DecidableEq

/-- The GNOME block of `is_dark_mode_enabled`: stdout contains `"dark"`. -/
def gnomeColorSchemeProbe (e : ThemeEnv) : Bool :=
  match e.gnomeColorScheme with
  | some stdout => strContains stdout "dark"
  | none => false

/-- The KDE Plasma block of `is_dark_mode_enabled`: `HOME` is set, the
`kdeglobals` file exists and is readable, and its content carries one of the
dark markers. -/
def kdeProbe (e : ThemeEnv) : Bool :=
  match e.home with
  | some _ =>
    if e.kdeglobalsExists then
      match e.kdeglobalsContent with
      | some content =>
        (if strContains content "[Colors:View]" && strContains content "BackgroundNormal=" then
          strContains content "BackgroundNormal=35,38,41"
        else false)
        || (strContains content "ColorScheme=BreezeDark"
            || strContains content "name=Breeze Dark")
      | none => false
    else false
  | none => false

/-- The XFCE block of `is_dark_mode_enabled`. -/
def xfceProbe (e : ThemeEnv) : Bool :=
  match e.xfceThemeName with
  | some stdout => strContains stdout "dark" || strContains stdout "Dark"
  | none => false

/-- The Cinnamon block of `is_dark_mode_enabled`. -/
def cinnamonProbe (e : ThemeEnv) : Bool :=
  match e.cinnamonGtkTheme with
  | some stdout => strContains stdout "dark" || strContains stdout "Dark"
  | none => false

/-- The MATE block of `is_dark_mode_enabled`. -/
def mateProbe (e : ThemeEnv) : Bool :=
  match e.mateGtkTheme with
  | some stdout => strContains stdout "dark" || strContains stdout "Dark"
  | none => false

/-- The Elementary OS block of `is_dark_mode_enabled`. -/
def elementaryProbe (e : ThemeEnv) : Bool :=
  match e.elementaryPreferDark with
  | some stdout => strContains stdout "true"
  | none => false

/-- The fallback GTK-theme block of `is_dark_mode_enabled`. -/
def gtkFallbackProbe (e : ThemeEnv) : Bool :=
  match e.gnomeGtkTheme with
  | some stdout => strContains stdout "dark" || strContains stdout "Dark"
  | none => false

/-- `is_dark_mode_enabled` (identical in `main.rs` and `_df.rs`): each block
returns `true` early when its marker matches, otherwise control falls through
to the next block; the final fallthrough returns `false`. -/
def is_dark_mode_enabled (e : ThemeEnv) : Bool :=
  if gnomeColorSchemeProbe e then true
  else if kdeProbe e then true
  else if xfceProbe e then true
  else if cinnamonProbe e then true
  else if mateProbe e then true
  else if elementaryProbe e then true
  else if gtkFallbackProbe e then true
  else false

/-- Spec-side reading of theme detection: at least one of the queried sources
reports a dark-mode marker. -/
def anyDarkSource (e : ThemeEnv) : Bool :=
  gnomeColorSchemeProbe e || kdeProbe e || xfceProbe e || cinnamonProbe e
    || mateProbe e || elementaryProbe e || gtkFallbackProbe e

/-- The three bundled icon bitmaps. -/
inductive IconChoice where
  | inactive
  | darkActive
  | lightActive
deriving DecidableEq

/-- `get_active_tray_icon`: light-active bitmap in dark mode, dark-active
bitmap otherwise. -/
def get_active_tray_icon (e : ThemeEnv) : IconChoice :=
  if is_dark_mode_enabled e then IconChoice.lightActive else IconChoice.darkActive

/-- The marker `is_warp_disconnected` looks for in `warp-cli status` output. -/
def disconnectedMarker : String := "Status update: Disconnected"

/-- `is_warp_disconnected`: `Except.error` models the `.expect(...)` panic
when spawning `warp-cli status` fails; otherwise the captured stdout is
tested for the disconnected marker. -/
def is_warp_disconnected (statusResult : ProcResult) : Except String Bool :=
  match statusResult with
  | ProcResult.err _ => Except.error "Failed to execute warp-cli status command"
  | ProcResult.ok stdout => Except.ok (strContains stdout disconnectedMarker)

/-- The body of the 2-second GLib timeout closure (identical in both files):
pick the icon to display from the captured status output and the theme
environment.  An `Except.error` propagates the `is_warp_disconnected` panic. -/
def pollTick (statusResult : ProcResult) (theme : ThemeEnv) : Except String IconChoice :=
  match is_warp_disconnected statusResult with
  | Except.error msg => Except.error msg
  | Except.ok true => Except.ok IconChoice.inactive
  | Except.ok false => Except.ok (get_active_tray_icon theme)

/-- Observable effects of the program: stdout lines, stderr lines, process
spawns, tray-icon updates, the `gtk::main_quit` call, and a panic aborting
the process. -/
inductive Effect where
  | printOut (line : String)
  | printErr (line : String)
  | spawn (program : String) (args : List String)
  | setIcon (icon : IconChoice)
  | mainQuit
  | panicked (msg : String)
deriving DecidableEq

/-- The external invocations an effect list performs. -/
def spawnsOf (effs : List Effect) : List (String × List String) :=
  effs.filterMap fun e =>
    match e with
    | Effect.spawn p a => some (p, a)
    | _ => none

/-- Whether an effect is a line written to standard error. -/
def isStderrEffect : Effect → Bool
  | Effect.printErr _ => true
  | _ => false

/-- Whether an effect exits or aborts the application. -/
def isExitEffect : Effect → Bool
  | Effect.mainQuit => true
  | Effect.panicked _ => true
  | _ => false

/-- The repeated per-arm pattern of the `main.rs` menu-event handler:
print the `Executing:` header, spawn `warp-cli` with fixed arguments, and
print the captured output when the spawn succeeded (a failed spawn is
silently ignored by the `if let Ok` pattern). -/
def execAndPrint (header : String) (args : List String) (result : ProcResult) : List Effect :=
  [Effect.printOut header, Effect.spawn "warp-cli" args] ++
    match result with
    | ProcResult.ok out => [Effect.printOut ("Output:\n" ++ out)]
    | ProcResult.err _ => []

/-- The `main.rs` menu-event handler: the `match event.id.0.as_str()` in the
spawned listener thread, with the `ProcResult` each arm's spawn would
produce passed in explicitly. -/
def handleMenuEventMain (id : String) (result : ProcResult) : List Effect :=
  match id with
  | "connect" => execAndPrint "Executing: warp-cli connect" ["connect"] result
  | "disconnect" => execAndPrint "Executing: warp-cli disconnect" ["disconnect"] result
  | "status" => execAndPrint "Executing: warp-cli status" ["status"] result
  | "enable_always_on" =>
      execAndPrint "Executing: warp-cli enable-always-on" ["enable-always-on"] result
  | "disable_always_on" =>
      execAndPrint "Executing: warp-cli disable-always-on" ["disable-always-on"] result
  | "set_mode_warp" =>
      execAndPrint "Executing: warp-cli set-mode warp" ["set-mode", "warp"] result
  | "set_mode_doh" =>
      execAndPrint "Executing: warp-cli set-mode doh" ["set-mode", "doh"] result
  | "set_mode_dot" =>
      execAndPrint "Executing: warp-cli set-mode dot" ["set-mode", "dot"] result
  | "set_mode_warp_doh" =>
      execAndPrint "Executing: warp-cli set-mode warp+doh" ["set-mode", "warp+doh"] result
  | "set_mode_warp_dot" =>
      execAndPrint "Executing: warp-cli set-mode warp+dot" ["set-mode", "warp+dot"] result
  | "teams_unenroll" =>
      execAndPrint "Executing: warp-cli teams-unenroll" ["teams-unenroll"] result
  | "register" => execAndPrint "Executing: warp-cli register" ["register"] result
  | "enable_logging" =>
      execAndPrint "Executing: warp-cli enable-logging" ["enable-logging"] result
  | "disable_logging" =>
      execAndPrint "Executing: warp-cli disable-logging" ["disable-logging"] result
  | "trace_support" =>
      execAndPrint "Executing: warp-cli trace-support" ["trace-support"] result
  | "generate_report" =>
      execAndPrint "Executing: warp-cli generate-report" ["generate-report"] result
  | _ => []

/-- `run_warp_command` from `_df.rs`: print the header, spawn `warp-cli`
with the subcommand and extra arguments, then print the captured output, or
log the spawn error to stderr. -/
def run_warp_command (command : String) (args : List String) (result : ProcResult) :
    List Effect :=
  [Effect.printOut ("Executing: warp-cli " ++ command ++ " " ++ String.intercalate " " args),
   Effect.spawn "warp-cli" (command :: args)] ++
    match result with
    | ProcResult.ok out => [Effect.printOut ("Output:\n" ++ out)]
    | ProcResult.err e => [Effect.printErr ("Error running " ++ command ++ ": " ++ e)]

/-- The `_df.rs` menu-event handler: the `match event.id.0.as_str()` in the
spawned listener thread. -/
def handleMenuEventDf (id : String) (result : ProcResult) : List Effect :=
  match id with
  | "connect" => run_warp_command "connect" [] result
  | "disconnect" => run_warp_command "disconnect" [] result
  | "status" => run_warp_command "status" [] result
  | "save" => [Effect.printOut "Save functionality not implemented"]
  | "enable_always_on" => run_warp_command "enable-always-on" [] result
  | "disable_always_on" => run_warp_command "disable-always-on" [] result
  | "mode_warp" => run_warp_command "set-mode" ["warp"] result
  | "mode_doh" => run_warp_command "set-mode" ["doh"] result
  | "mode_dot" => run_warp_command "set-mode" ["dot"] result
  | "mode_warp_doh" => run_warp_command "set-mode" ["warp+doh"] result
  | "mode_warp_dot" => run_warp_command "set-mode" ["warp+dot"] result
  | "teams_unenroll" => run_warp_command "teams-unenroll" [] result
  | "register" => run_warp_command "register" [] result
  | "enable_logging" => run_warp_command "enable-logging" [] result
  | "disable_logging" => run_warp_command "disable-logging" [] result
  | "trace_support" => run_warp_command "trace-support" [] result
  | "generate_report" => run_warp_command "generate-report" [] result
  | "quit" => [Effect.printOut "Quitting application...", Effect.mainQuit]
  | _ => []

/-- A warp-cli menu action: its menu identifier and the fixed `warp-cli`
argument list it invokes. -/
structure WarpAction where
  menuId : String
  subcommand : String
  extraArgs : List String
deriving DecidableEq

/-- The sixteen warp-cli actions of the flat `main.rs` menu. -/
def mainActions : List WarpAction :=
  [⟨"connect", "connect", []⟩,
   ⟨"disconnect", "disconnect", []⟩,
   ⟨"status", "status", []⟩,
   ⟨"enable_always_on", "enable-always-on", []⟩,
   ⟨"disable_always_on", "disable-always-on", []⟩,
   ⟨"set_mode_warp", "set-mode", ["warp"]⟩,
   ⟨"set_mode_doh", "set-mode", ["doh"]⟩,
   ⟨"set_mode_dot", "set-mode", ["dot"]⟩,
   ⟨"set_mode_warp_doh", "set-mode", ["warp+doh"]⟩,
   ⟨"set_mode_warp_dot", "set-mode", ["warp+dot"]⟩,
   ⟨"teams_unenroll", "teams-unenroll", []⟩,
   ⟨"register", "register", []⟩,
   ⟨"enable_logging", "enable-logging", []⟩,
   ⟨"disable_logging", "disable-logging", []⟩,
   ⟨"trace_support", "trace-support", []⟩,
   ⟨"generate_report", "generate-report", []⟩]

/-- The sixteen warp-cli actions of the `_df.rs` submenu variant. -/
def dfActions : List WarpAction :=
  [⟨"connect", "connect", []⟩,
   ⟨"disconnect", "disconnect", []⟩,
   ⟨"status", "status", []⟩,
   ⟨"enable_always_on", "enable-always-on", []⟩,
   ⟨"disable_always_on", "disable-always-on", []⟩,
   ⟨"mode_warp", "set-mode", ["warp"]⟩,
   ⟨"mode_doh", "set-mode", ["doh"]⟩,
   ⟨"mode_dot", "set-mode", ["dot"]⟩,
   ⟨"mode_warp_doh", "set-mode", ["warp+doh"]⟩,
   ⟨"mode_warp_dot", "set-mode", ["warp+dot"]⟩,
   ⟨"teams_unenroll", "teams-unenroll", []⟩,
   ⟨"register", "register", []⟩,
   ⟨"enable_logging", "enable-logging", []⟩,
   ⟨"disable_logging", "disable-logging", []⟩,
   ⟨"trace_support", "trace-support", []⟩,
   ⟨"generate_report", "generate-report", []⟩]

/-- The argument lists documented in the spec's external-interface section:
`connect`, `disconnect`, `status`, `enable-always-on`, `disable-always-on`,
the five `set-mode` variants, `teams-unenroll`, `register`,
`enable-logging`, `disable-logging`, `trace-support`, `generate-report`. -/
def documentedInvocations : List (List String) :=
  [["connect"], ["disconnect"], ["status"],
   ["enable-always-on"], ["disable-always-on"],
   ["set-mode", "warp"], ["set-mode", "doh"], ["set-mode", "dot"],
   ["set-mode", "warp+doh"], ["set-mode", "warp+dot"],
   ["teams-unenroll"], ["register"],
   ["enable-logging"], ["disable-logging"],
   ["trace-support"], ["generate-report"]]

/-- The menu identifiers with a dedicated arm in the `main.rs` handler. -/
def mainDefinedIds : List String := mainActions.map WarpAction.menuId

/-- The menu identifiers with a dedicated arm in the `_df.rs` handler. -/
def dfDefinedIds : List String := dfActions.map WarpAction.menuId ++ ["save", "quit"]

/-- A node of the static tray menu tree. -/
inductive MenuNode where
  | action (id label : String)
  | separator
  | submenu (id label : String) (children : List MenuNode)

mutual

/-- The identifiers of the action items in a menu tree, in order. -/
def MenuNode.actionIds : MenuNode → List String
  | MenuNode.action id _ => [id]
  | MenuNode.separator => []
  | MenuNode.submenu _ _ children => menuListActionIds children

/-- The identifiers of the action items in a list of menu nodes. -/
def menuListActionIds : List MenuNode → List String
  | [] => []
  | n :: rest => n.actionIds ++ menuListActionIds rest

end

/-- The flat tray menu built by `main.rs` (sixteen items, appended in
source order; no quit item). -/
def mainMenu : List MenuNode :=
  [MenuNode.action "connect" "Warp Connect",
   MenuNode.action "disconnect" "Warp Disconnect",
   MenuNode.action "status" "Warp Status",
   MenuNode.action "enable_always_on" "On StartUp: warp-cli enable-always-on",
   MenuNode.action "disable_always_on" "On StartUp: warp-cli disable-always-on",
   MenuNode.action "set_mode_warp" "Set Mode: warp",
   MenuNode.action "set_mode_doh" "Set Mode: doh",
   MenuNode.action "set_mode_dot" "Set Mode: dot",
   MenuNode.action "set_mode_warp_doh" "Set Mode: warp+doh",
   MenuNode.action "set_mode_warp_dot" "Set Mode: warp+dot",
   MenuNode.action "teams_unenroll" "Other: warp-cli teams-unenroll",
   MenuNode.action "register" "Other: warp-cli register",
   MenuNode.action "enable_logging" "Other: warp-cli enable-logging",
   MenuNode.action "disable_logging" "Other: warp-cli disable-logging",
   MenuNode.action "trace_support" "Other: warp-cli trace-support",
   MenuNode.action "generate_report" "Other: warp-cli generate-report"]

/-- The nested tray menu built by `_df.rs`, in append order (the first
separator is appended before the connect item in the source). -/
def dfMenu : List MenuNode :=
  [MenuNode.separator,
   MenuNode.action "connect" "Connect",
   MenuNode.action "disconnect" "Disconnect",
   MenuNode.action "status" "Status",
   MenuNode.separator,
   MenuNode.submenu "startup" "On Startup"
     [MenuNode.action "enable_always_on" "Enable Always-On",
      MenuNode.action "disable_always_on" "Disable Always-On"],
   MenuNode.submenu "mode" "Set Mode"
     [MenuNode.action "mode_warp" "WARP",
      MenuNode.action "mode_doh" "DoH (DNS over HTTPS)",
      MenuNode.action "mode_dot" "DoT (DNS over TLS)",
      MenuNode.action "mode_warp_doh" "WARP+DoH",
      MenuNode.action "mode_warp_dot" "WARP+DoT"],
   MenuNode.submenu "other" "Other"
     [MenuNode.action "teams_unenroll" "Unenroll from Cloudflare for Teams",
      MenuNode.action "register" "Register Device with Cloudflare",
      MenuNode.separator,
      MenuNode.action "enable_logging" "Enable Debug Logging",
      MenuNode.action "disable_logging" "Disable Debug Logging",
      MenuNode.separator,
      MenuNode.action "trace_support" "Generate Trace Report",
      MenuNode.action "generate_report" "Generate Diagnostic Report"],
   MenuNode.separator,
   MenuNode.action "save" "Save",
   MenuNode.separator,
   MenuNode.action "quit" "Quit"]

/-- The mutable state of the `_df.rs` application: whether the menu-listener
thread is still in its receive loop (`break` on quit ends it), whether the
GTK main loop is running (`gtk::main_quit` or a panic ends it), and the icon
currently displayed. -/
structure AppState where
  menuThreadRunning : Bool
  mainLoopRunning : Bool
  icon : IconChoice
deriving DecidableEq

/-- An event processed by the `_df.rs` application: a menu selection
(together with the captured result of the process the handler would spawn)
or a firing of the 2-second poll timer (together with the captured status
result and theme environment it would observe). -/
inductive LoopEvent where
  | menu (id : String) (result : ProcResult)
  | tick (statusResult : ProcResult) (theme : ThemeEnv)
deriving DecidableEq

/-- One step of the `_df.rs` application.  A menu event is handled only
while the listener thread runs; the `quit` arm calls `gtk::main_quit` and
breaks out of the listener loop.  A poll tick runs only while the GTK main
loop runs; it spawns `warp-cli status` and either updates the icon or, when
the spawn fails, panics (aborting the process). -/
def stepEvent (s : AppState) (ev : LoopEvent) : AppState × List Effect :=
  match ev with
  | LoopEvent.menu id r =>
    if s.menuThreadRunning then
      if id = "quit" then
        ({ s with menuThreadRunning := false, mainLoopRunning := false },
         handleMenuEventDf id r)
      else (s, handleMenuEventDf id r)
    else (s, [])
  | LoopEvent.tick st theme =>
    if s.mainLoopRunning then
      match pollTick st theme with
      | Except.ok icon =>
        ({ s with icon := icon },
         [Effect.spawn "warp-cli" ["status"], Effect.setIcon icon])
      | Except.error msg =>
        ({ s with menuThreadRunning := false, mainLoopRunning := false },
         [Effect.spawn "warp-cli" ["status"], Effect.panicked msg])
    else (s, [])

/-- Process a sequence of events, collecting all effects. -/
def runEvents (s : AppState) (evs : List LoopEvent) : AppState × List Effect :=
  match evs with
  | [] => (s, [])
  | ev :: rest =>
    let step := stepEvent s ev
    let tail := runEvents step.1 rest
    (tail.1, step.2 ++ tail.2)

/-- A {title, command} pair of the user-supplied command list. -/
structure UserCommand where
  title : String
  command : String
deriving DecidableEq

/-- A menu identifier in the presence of dynamically generated entries:
either one of the static string identifiers or the index-derived identifier
of a user-command entry. -/
inductive MenuId where
  | builtin (id : String)
  | userCmd (idx : Nat)
deriving DecidableEq

/-- A dynamically generated menu entry for a user command. -/
structure UserMenuItem where
  id : MenuId
  label : String
  shellCommand : String
deriving DecidableEq

/-- Modelled from the spec: the user command-list feature ("Reads an
optional user-supplied command list from a fixed path on the user's desktop
directory, parsed as a list of {title, command} pairs, each bound to a
dynamically generated menu entry that runs the command through a shell") is
not present in either file under `src/`.  Each parsed pair is bound to one
generated menu entry whose identifier is derived from the pair's position in
the list; the spec does not fix the identifier representation, so generated
identifiers are modelled as a tag distinct from the static string ones. -/
def buildUserMenuItems (cmds : List UserCommand) : List UserMenuItem :=
  cmds.enum.map fun p =>
    { id := MenuId.userCmd p.1, label := p.2.title, shellCommand := p.2.command }

/-- The identifiers of a static menu, injected into `MenuId`. -/
def staticMenuIds (menu : List MenuNode) : List MenuId :=
  (menuListActionIds menu).map MenuId.builtin

/-- All identifiers of the menu built from a static tree plus the
dynamically generated user-command entries. -/
def fullMenuIds (menu : List MenuNode) (cmds : List UserCommand) : List MenuId :=
  staticMenuIds menu ++ (buildUserMenuItems cmds).map UserMenuItem.id

/-- A theme environment in which every query tool fails and no KDE config
file is present. -/
def noSourceEnv : ThemeEnv :=
  { gnomeColorScheme := none, home := none, kdeglobalsExists := false,
    kdeglobalsContent := none, xfceThemeName := none, cinnamonGtkTheme := none,
    mateGtkTheme := none, elementaryPreferDark := none, gnomeGtkTheme := none }

/-- A theme environment whose only available source is an existing but
unreadable `kdeglobals` file. -/
def unreadableKdeEnv : ThemeEnv :=
  { noSourceEnv with home := some "/home/user", kdeglobalsExists := true }

/-- A theme environment whose only available source is a readable
`kdeglobals` file carrying none of the dark markers. -/
def malformedKdeEnv : ThemeEnv :=
  { unreadableKdeEnv with
    kdeglobalsContent := some "[General]\nColorScheme=BreezeLight\n" }

/-- A theme environment in which the GNOME color-scheme query reports a
dark preference. -/
def gnomeDarkEnv : ThemeEnv :=
  { noSourceEnv with gnomeColorScheme := some "prefer-dark" }

/-! ## Helper lemmas -/

/-- The early-return chain of `is_dark_mode_enabled` computes the
disjunction of its seven probes. -/
theorem is_dark_eq_anyDarkSource (e : ThemeEnv) :
    is_dark_mode_enabled e = anyDarkSource e := by
  unfold is_dark_mode_enabled anyDarkSource
  cases gnomeColorSchemeProbe e <;> cases kdeProbe e <;> cases xfceProbe e <;>
    cases cinnamonProbe e <;> cases mateProbe e <;> cases elementaryProbe e <;>
    cases gtkFallbackProbe e <;> rfl

/-- Once both the menu-listener thread and the GTK main loop have stopped,
no further event has any effect. -/
theorem runEvents_halted (s : AppState) (h1 : s.menuThreadRunning = false)
    (h2 : s.mainLoopRunning = false) (evs : List LoopEvent) :
    runEvents s evs = (s, []) := by
  induction evs with
  | nil => rfl
  | cons ev rest ih =>
    cases ev <;> simp [runEvents, stepEvent, h1, h2, ih]

/-- The identifiers of the generated user-command entries are exactly the
index-derived identifiers over the positions of the source list. -/
theorem userMenuItems_map_id (cmds : List UserCommand) :
    (buildUserMenuItems cmds).map UserMenuItem.id
      = (List.range cmds.length).map MenuId.userCmd := by
  unfold buildUserMenuItems
  rw [List.map_map]
  have h : (UserMenuItem.id ∘ fun p : Nat × UserCommand =>
      ({ id := MenuId.userCmd p.1, label := p.2.title,
         shellCommand := p.2.command } : UserMenuItem))
      = MenuId.userCmd ∘ Prod.fst := rfl
  rw [h, ← List.map_map, List.enum_map_fst]

/-! ## Claims -/

/-- C1: for every defined menu action, in either variant, the event handler
spawns `warp-cli` with exactly the fixed argument list of that action, for
any outcome of the spawn (no dependence on user input), and the two action
tables carry exactly the documented invocations. -/
theorem menu_actions_spawn_documented (a : WarpAction) (r : ProcResult) :
    (a ∈ mainActions →
      spawnsOf (handleMenuEventMain a.menuId r) = [("warp-cli", a.subcommand :: a.extraArgs)])
    ∧ (a ∈ dfActions →
      spawnsOf (handleMenuEventDf a.menuId r) = [("warp-cli", a.subcommand :: a.extraArgs)])
    ∧ mainActions.map (fun x => x.subcommand :: x.extraArgs) = documentedInvocations
    ∧ dfActions.map (fun x => x.subcommand :: x.extraArgs) = documentedInvocations := by
  refine ⟨fun h => ?_, fun h => ?_, rfl, rfl⟩
  · fin_cases h <;> cases r <;> rfl
  · fin_cases h <;> cases r <;> rfl

/-- Witness for C1 at the `connect` action. -/
theorem menu_actions_spawn_documented_witness :
    (⟨"connect", "connect", []⟩ : WarpAction) ∈ mainActions
    ∧ spawnsOf (handleMenuEventMain "connect" (ProcResult.ok "done"))
        = [("warp-cli", ["connect"])] :=
  ⟨by decide,
   (menu_actions_spawn_documented ⟨"connect", "connect", []⟩ (ProcResult.ok "done")).1
     (by decide)⟩

/-- C2: on a poll tick whose captured status output contains the
disconnected marker, the icon set on the tray is the inactive bitmap
regardless of the theme environment; otherwise it is the theme-appropriate
active bitmap chosen by `get_active_tray_icon`. -/
theorem poll_icon_disconnected_inactive (st : String) (e : ThemeEnv) (s : AppState)
    (hrun : s.mainLoopRunning = true) :
    (strContains st disconnectedMarker = true →
      stepEvent s (LoopEvent.tick (ProcResult.ok st) e)
        = ({ s with icon := IconChoice.inactive },
           [Effect.spawn "warp-cli" ["status"], Effect.setIcon IconChoice.inactive]))
    ∧ (strContains st disconnectedMarker = false →
      stepEvent s (LoopEvent.tick (ProcResult.ok st) e)
        = ({ s with icon := get_active_tray_icon e },
           [Effect.spawn "warp-cli" ["status"],
            Effect.setIcon (get_active_tray_icon e)])) := by
  constructor <;> intro h <;>
    simp [stepEvent, hrun, pollTick, is_warp_disconnected, h]

/-- Witness for C2: a disconnected and a connected status output. -/
theorem poll_icon_disconnected_inactive_witness :
    (strContains "Status update: Disconnected\n" disconnectedMarker = true
      ∧ stepEvent ⟨true, true, IconChoice.darkActive⟩
          (LoopEvent.tick (ProcResult.ok "Status update: Disconnected\n") gnomeDarkEnv)
        = (⟨true, true, IconChoice.inactive⟩,
           [Effect.spawn "warp-cli" ["status"], Effect.setIcon IconChoice.inactive]))
    ∧ (strContains "Status update: Connected\n" disconnectedMarker = false
      ∧ stepEvent ⟨true, true, IconChoice.inactive⟩
          (LoopEvent.tick (ProcResult.ok "Status update: Connected\n") gnomeDarkEnv)
        = (⟨true, true, get_active_tray_icon gnomeDarkEnv⟩,
           [Effect.spawn "warp-cli" ["status"],
            Effect.setIcon (get_active_tray_icon gnomeDarkEnv)])) :=
  ⟨⟨by decide,
    (poll_icon_disconnected_inactive "Status update: Disconnected\n" gnomeDarkEnv
      ⟨true, true, IconChoice.darkActive⟩ rfl).1 (by decide)⟩,
   ⟨by decide,
    (poll_icon_disconnected_inactive "Status update: Connected\n" gnomeDarkEnv
      ⟨true, true, IconChoice.inactive⟩ rfl).2 (by decide)⟩⟩

/-- C3: theme detection reports dark exactly when at least one queried
source carries its dark marker, and reports light whenever no source
matches (in particular when no source is available). -/
theorem dark_mode_iff_any_source (e : ThemeEnv) :
    (is_dark_mode_enabled e = true ↔ anyDarkSource e = true)
    ∧ (anyDarkSource e = false → is_dark_mode_enabled e = false) := by
  rw [is_dark_eq_anyDarkSource]
  exact ⟨Iff.rfl, fun h => h⟩

/-- Witness for C3: with no source available the result is light. -/
theorem dark_mode_iff_any_source_witness :
    anyDarkSource noSourceEnv = false ∧ is_dark_mode_enabled noSourceEnv = false :=
  ⟨by decide, (dark_mode_iff_any_source noSourceEnv).2 (by decide)⟩

/-- C9: on a poll tick that is not disconnected, the chosen active icon is
the light-active bitmap exactly when dark mode is detected and the
dark-active bitmap exactly when it is not. -/
theorem active_icon_contrasts_theme (st : String) (e : ThemeEnv)
    (h : strContains st disconnectedMarker = false) :
    (pollTick (ProcResult.ok st) e = Except.ok IconChoice.lightActive
      ↔ is_dark_mode_enabled e = true)
    ∧ (pollTick (ProcResult.ok st) e = Except.ok IconChoice.darkActive
      ↔ is_dark_mode_enabled e = false) := by
  simp only [pollTick, is_warp_disconnected, h, get_active_tray_icon]
  cases hd : is_dark_mode_enabled e <;> simp

/-- Witness for C9 at a dark GNOME environment and a connected output. -/
theorem active_icon_contrasts_theme_witness :
    strContains "Status update: Connected\n" disconnectedMarker = false
    ∧ (pollTick (ProcResult.ok "Status update: Connected\n") gnomeDarkEnv
        = Except.ok IconChoice.lightActive ↔ is_dark_mode_enabled gnomeDarkEnv = true) :=
  ⟨by decide,
   (active_icon_contrasts_theme "Status update: Connected\n" gnomeDarkEnv (by decide)).1⟩

/-- C10: a menu event whose identifier is none of the defined ones produces
no effect in either handler and leaves the application state unchanged. -/
theorem unknown_menu_event_no_op (id : String) (r : ProcResult) (s : AppState)
    (h1 : id ∉ mainDefinedIds) (h2 : id ∉ dfDefinedIds) :
    handleMenuEventMain id r = []
    ∧ handleMenuEventDf id r = []
    ∧ stepEvent s (LoopEvent.menu id r) = (s, []) := by
  simp only [mainDefinedIds, mainActions, dfDefinedIds, dfActions, List.map,
    List.mem_cons, List.mem_append, not_or, List.not_mem_nil] at h1 h2
  have hmain : handleMenuEventMain id r = [] := by
    unfold handleMenuEventMain
    split <;> simp_all
  have hdf : handleMenuEventDf id r = [] := by
    unfold handleMenuEventDf
    split <;> simp_all
  refine ⟨hmain, hdf, ?_⟩
  have hq : ¬ id = "quit" := by simp_all
  cases hr : s.menuThreadRunning <;> simp [stepEvent, hr, hq, hdf]

/-- Witness for C10 at an undefined identifier. -/
theorem unknown_menu_event_no_op_witness :
    ("bogus" ∉ mainDefinedIds ∧ "bogus" ∉ dfDefinedIds)
    ∧ handleMenuEventMain "bogus" (ProcResult.ok "") = []
    ∧ handleMenuEventDf "bogus" (ProcResult.ok "") = []
    ∧ stepEvent ⟨true, true, IconChoice.inactive⟩
        (LoopEvent.menu "bogus" (ProcResult.ok "")) = (⟨true, true, IconChoice.inactive⟩, []) :=
  ⟨⟨by decide, by decide⟩,
   unknown_menu_event_no_op "bogus" (ProcResult.ok "") ⟨true, true, IconChoice.inactive⟩
     (by decide) (by decide)⟩

/-- C4 counterexample: a failed spawn of the polling status command is not
caught — `is_warp_disconnected` panics (modelled as `Except.error`) and the
application aborts — and a failed menu-action spawn in the flat `main.rs`
variant writes nothing to standard error. -/
theorem process_failure_counterexample :
    pollTick (ProcResult.err "No such file or directory (os error 2)") noSourceEnv
      = Except.error "Failed to execute warp-cli status command"
    ∧ (handleMenuEventMain "connect"
        (ProcResult.err "No such file or directory (os error 2)")).filter isStderrEffect
      = [] :=
  ⟨rfl, rfl⟩

/-- C4 amended: menu-action spawn failures are caught and the application
continues — logged to stderr in the `_df.rs` variant, silently ignored in
the `main.rs` variant — while a spawn failure of the polling status command
panics and aborts the application. -/
theorem process_failure_amended (msg : String) (e : ThemeEnv) (a : WarpAction)
    (r : ProcResult) :
    pollTick (ProcResult.err msg) e
      = Except.error "Failed to execute warp-cli status command"
    ∧ (a ∈ dfActions →
        (handleMenuEventDf a.menuId (ProcResult.err msg)).filter isStderrEffect
          = [Effect.printErr ("Error running " ++ a.subcommand ++ ": " ++ msg)])
    ∧ (a ∈ mainActions →
        (handleMenuEventMain a.menuId (ProcResult.err msg)).filter isStderrEffect = [])
    ∧ (a ∈ dfActions →
        (handleMenuEventDf a.menuId r).all (fun eff => !isExitEffect eff) = true)
    ∧ (a ∈ mainActions →
        (handleMenuEventMain a.menuId r).all (fun eff => !isExitEffect eff) = true) := by
  refine ⟨rfl, fun h => ?_, fun h => ?_, fun h => ?_, fun h => ?_⟩
  · fin_cases h <;> rfl
  · fin_cases h <;> rfl
  · fin_cases h <;> cases r <;> rfl
  · fin_cases h <;> cases r <;> rfl

/-- Witness for C4 amended at the `connect` action. -/
theorem process_failure_amended_witness :
    (⟨"connect", "connect", []⟩ : WarpAction) ∈ dfActions
    ∧ (handleMenuEventDf "connect" (ProcResult.err "boom")).filter isStderrEffect
      = [Effect.printErr ("Error running " ++ "connect" ++ ": " ++ "boom")] :=
  ⟨by decide,
   (process_failure_amended "boom" noSourceEnv ⟨"connect", "connect", []⟩
     (ProcResult.ok "")).2.1 (by decide)⟩

/-- C5 counterexample: with an existing but unreadable `kdeglobals` file —
or one carrying no dark marker — the program neither aborts nor reports the
failure: theme detection returns light and the poll tick proceeds normally
with the main loop still running. -/
theorem config_failure_counterexample :
    is_dark_mode_enabled unreadableKdeEnv = false
    ∧ is_dark_mode_enabled malformedKdeEnv = false
    ∧ stepEvent ⟨true, true, IconChoice.inactive⟩
        (LoopEvent.tick (ProcResult.ok "Status update: Connected") unreadableKdeEnv)
      = (⟨true, true, IconChoice.darkActive⟩,
         [Effect.spawn "warp-cli" ["status"], Effect.setIcon IconChoice.darkActive]) := by
  refine ⟨by decide, by decide, by decide⟩

/-- C5 amended: a missing, unreadable, or markerless KDE `kdeglobals` file
(the only external configuration file the program reads, during theme
probing rather than startup) is silently skipped: detection reduces to the
remaining sources and a poll tick with captured status output always
completes normally. -/
theorem config_failure_skipped (e : ThemeEnv) (h : kdeProbe e = false) :
    is_dark_mode_enabled e
      = (gnomeColorSchemeProbe e || xfceProbe e || cinnamonProbe e
          || mateProbe e || elementaryProbe e || gtkFallbackProbe e)
    ∧ ∀ st : String, pollTick (ProcResult.ok st) e
        = Except.ok (if strContains st disconnectedMarker then IconChoice.inactive
                     else get_active_tray_icon e) := by
  constructor
  · rw [is_dark_eq_anyDarkSource]
    unfold anyDarkSource
    rw [h]
    cases gnomeColorSchemeProbe e <;> rfl
  · intro st
    simp only [pollTick, is_warp_disconnected]
    cases strContains st disconnectedMarker <;> simp

/-- Witness for C5 amended at the unreadable-kdeglobals environment. -/
theorem config_failure_skipped_witness :
    kdeProbe unreadableKdeEnv = false
    ∧ is_dark_mode_enabled unreadableKdeEnv
      = (gnomeColorSchemeProbe unreadableKdeEnv || xfceProbe unreadableKdeEnv
          || cinnamonProbe unreadableKdeEnv || mateProbe unreadableKdeEnv
          || elementaryProbe unreadableKdeEnv || gtkFallbackProbe unreadableKdeEnv) :=
  ⟨by decide, (config_failure_skipped unreadableKdeEnv (by decide)).1⟩

/-- C6: while the listener thread runs, a `quit` menu event fires
`gtk::main_quit` exactly once, stops both the listener thread and the main
loop, and every subsequent event — poll ticks included — produces no
status invocation, no icon update, and no effect at all. -/
theorem quit_terminates_loop_once (s : AppState) (r : ProcResult)
    (evs : List LoopEvent) (h : s.menuThreadRunning = true) :
    (stepEvent s (LoopEvent.menu "quit" r)).2.count Effect.mainQuit = 1
    ∧ (stepEvent s (LoopEvent.menu "quit" r)).1.menuThreadRunning = false
    ∧ (stepEvent s (LoopEvent.menu "quit" r)).1.mainLoopRunning = false
    ∧ runEvents (stepEvent s (LoopEvent.menu "quit" r)).1 evs
      = ((stepEvent s (LoopEvent.menu "quit" r)).1, []) := by
  have hstep : stepEvent s (LoopEvent.menu "quit" r)
      = ({ s with menuThreadRunning := false, mainLoopRunning := false },
         handleMenuEventDf "quit" r) := by
    simp [stepEvent, h]
  rw [hstep]
  exact ⟨rfl, rfl, rfl, runEvents_halted _ rfl rfl evs⟩

/-- Witness for C6: quit from the running state followed by a tick and a
menu event, none of which has any effect. -/
theorem quit_terminates_loop_once_witness :
    (⟨true, true, IconChoice.inactive⟩ : AppState).menuThreadRunning = true
    ∧ runEvents (stepEvent ⟨true, true, IconChoice.inactive⟩
        (LoopEvent.menu "quit" (ProcResult.ok ""))).1
        [LoopEvent.tick (ProcResult.ok "x") noSourceEnv,
         LoopEvent.menu "connect" (ProcResult.ok "")]
      = ((stepEvent ⟨true, true, IconChoice.inactive⟩
          (LoopEvent.menu "quit" (ProcResult.ok ""))).1, []) :=
  ⟨rfl,
   (quit_terminates_loop_once ⟨true, true, IconChoice.inactive⟩ (ProcResult.ok "")
     [LoopEvent.tick (ProcResult.ok "x") noSourceEnv,
      LoopEvent.menu "connect" (ProcResult.ok "")] rfl).2.2.2⟩

/-- C7 (feature modelled from the spec): a user command list of N entries
yields exactly N generated menu items, the i-th item is bound to the i-th
{title, command} pair with the identifier derived from i, and the combined
identifier list of either static menu plus the generated entries has no
duplicate. -/
theorem user_commands_menu_items (cmds : List UserCommand) :
    (buildUserMenuItems cmds).length = cmds.length
    ∧ (∀ i : Nat, (buildUserMenuItems cmds).get? i = (cmds.get? i).map fun c =>
        { id := MenuId.userCmd i, label := c.title, shellCommand := c.command })
    ∧ (fullMenuIds dfMenu cmds).Nodup
    ∧ (fullMenuIds mainMenu cmds).Nodup := by
  have hlen : (buildUserMenuItems cmds).length = cmds.length := by
    simp [buildUserMenuItems]
  have hget : ∀ i : Nat, (buildUserMenuItems cmds).get? i = (cmds.get? i).map fun c =>
      { id := MenuId.userCmd i, label := c.title, shellCommand := c.command } := by
    intro i
    simp only [buildUserMenuItems, List.get?_eq_getElem?, List.getElem?_map,
      List.getElem?_enum]
    cases cmds[i]? <;> rfl
  have hdyn : ((buildUserMenuItems cmds).map UserMenuItem.id).Nodup := by
    rw [userMenuItems_map_id]
    exact (List.nodup_range _).map fun a b hab => MenuId.userCmd.inj hab
  have hdisj : ∀ menu : List MenuNode,
      (staticMenuIds menu).Disjoint ((buildUserMenuItems cmds).map UserMenuItem.id) := by
    intro menu x hx hy
    obtain ⟨sid, _, rfl⟩ := List.mem_map.mp hx
    rw [userMenuItems_map_id] at hy
    obtain ⟨n, _, hn⟩ := List.mem_map.mp hy
    exact absurd hn (by simp)
  exact ⟨hlen, hget,
    List.Nodup.append (by decide) hdyn (hdisj dfMenu),
    List.Nodup.append (by decide) hdyn (hdisj mainMenu)⟩

/-- C8 counterexample: the flat `main.rs` menu has no `quit` action, and
the `quit` action of the `_df.rs` menu is not mapped to any command-line
invocation. -/
theorem menu_quit_counterexample :
    "quit" ∉ menuListActionIds mainMenu
    ∧ spawnsOf (handleMenuEventDf "quit" (ProcResult.ok "")) = [] :=
  ⟨by decide, rfl⟩

/-- C8 amended: both static menus contain a labeled action for every
warp-cli action (connect, disconnect, status, the five mode selections,
both logging toggles, teams unenrollment, trace and diagnostic report
generation), each mapped one-to-one to a distinct fixed invocation; the
`quit` action exists only in the `_df.rs` menu and maps to loop termination
rather than a command-line invocation. -/
theorem menu_tree_amended :
    dfActions.all (fun a => (menuListActionIds dfMenu).contains a.menuId) = true
    ∧ mainActions.all (fun a => (menuListActionIds mainMenu).contains a.menuId) = true
    ∧ "quit" ∈ menuListActionIds dfMenu
    ∧ "quit" ∉ menuListActionIds mainMenu
    ∧ (mainActions.map WarpAction.menuId).Nodup
    ∧ (dfActions.map WarpAction.menuId).Nodup
    ∧ (mainActions.map fun a => a.subcommand :: a.extraArgs).Nodup
    ∧ (dfActions.map fun a => a.subcommand :: a.extraArgs).Nodup
    ∧ ∀ r : ProcResult, handleMenuEventDf "quit" r
        = [Effect.printOut "Quitting application...", Effect.mainQuit] :=
  ⟨by decide, by decide, by decide, by decide, by decide, by decide, by decide,
   by decide, fun r => rfl⟩

end WarpTaskbar
